/-
Verification of the binary decoding layer of minidump-common
(src/minidump-common/src/format.rs).

The Rust code decodes minidump records from raw byte buffers using the
scroll crate: every record type implements
`try_from_ctx(src: &[u8], endian) -> Result<(Self, usize), scroll::Error>`,
either by a derived `Pread` implementation (sequential field reads via
`gread_with`) or by a hand-written implementation.

This file gives a shallow embedding of that layer:
 * byte buffers are `List Nat` (one entry per byte),
 * scroll's error type is `ScrollError` (`TooBig`, `BadOffset`, `Custom`),
 * scroll's `gread_with` is `gread`: it fails with `BadOffset` when the
   offset is not strictly inside the buffer (scroll checks `offset >= len`
   before any read, even a zero-sized one), otherwise runs the element
   decoder on the remaining bytes and advances the offset,
 * fixed-width integers are read little- or big-endian according to an
   explicit `Endian` parameter, exactly as scroll's `ctx` does,
 * the `?` operator on `Result` is the `dstep` combinator on `Except`.

Record structs keep the Rust names and field order.
-/
import Mathlib

namespace Minidump

/-- A byte buffer: one `Nat` per byte (values are the byte values 0..255;
decoding never depends on an upper bound, it only combines the entries). -/
abbrev Bytes := List Nat

/-- scroll's `Endian` context: the byte order is an explicit parameter. -/
inductive Endian where
  | le
  | be
deriving DecidableEq

/-- scroll's error type, restricted to the variants this layer produces.
`TooBig` and `BadOffset` are the bounds errors of the primitive codec;
`Custom` carries a hand-written message (used by the UTF-8 string decoder
for a missing NUL terminator). -/
inductive ScrollError where
  | TooBig (size len : Nat)
  | BadOffset (offset : Nat)
  | Custom (msg : String)
deriving DecidableEq

-- Equality of decode results is decidable, so the decoders can be
-- evaluated on concrete buffers.
deriving instance DecidableEq for Except

/-- The `OutOfBounds` error class of the spec: a read would exceed the
buffer (`TooBig`), or starts at or past its end (`BadOffset`). -/
def ScrollError.isOutOfBounds : ScrollError → Bool
  | .TooBig _ _ => true
  | .BadOffset _ => true
  | .Custom _ => false

/-- The `MissingTerminator` error class of the spec: the hand-written
`Custom` error raised when a length-prefixed string lacks its NUL byte. -/
def ScrollError.isMissingTerminator : ScrollError → Bool
  | .Custom _ => true
  | _ => false

/-- Value of a little-endian byte sequence (first byte least significant). -/
def leValue : Bytes → Nat
  | [] => 0
  | b :: bs => b + 256 * leValue bs

/-- Value of a big-endian byte sequence (first byte most significant). -/
def beValue (bs : Bytes) : Nat :=
  bs.foldl (fun acc b => 256 * acc + b) 0

/-- Value of a byte sequence under a given byte order. -/
def uintValue : Endian → Bytes → Nat
  | .le, bs => leValue bs
  | .be, bs => beValue bs

/-- scroll's `TryFromCtx` for a fixed-width `n`-byte unsigned integer:
fails with `TooBig` when fewer than `n` bytes remain. -/
def uintFromCtx (e : Endian) (n : Nat) (src : Bytes) : Except ScrollError (Nat × Nat) :=
  if src.length < n then .error (.TooBig n src.length)
  else .ok (uintValue e (src.take n), n)

/-- scroll's `TryFromCtx` for `&[u8]` with a size context: reads exactly
`size` bytes, failing with `TooBig` when fewer remain. -/
def sliceFromCtx (size : Nat) (src : Bytes) : Except ScrollError (Bytes × Nat) :=
  if src.length < size then .error (.TooBig size src.length)
  else .ok (src.take size, size)

/-- scroll's `gread_with`: rejects an offset at or past the end of the
buffer with `BadOffset` (even for a zero-sized read), otherwise runs the
element decoder on the bytes from `offset` on and advances the offset by
the number of bytes the element consumed. -/
def gread {α : Type} (dec : Bytes → Except ScrollError (α × Nat)) (src : Bytes)
    (offset : Nat) : Except ScrollError (α × Nat) :=
  if src.length ≤ offset then .error (.BadOffset offset)
  else
    match dec (src.drop offset) with
    | .error er => .error er
    | .ok (v, sz) => .ok (v, offset + sz)

/-- Rust's `?` operator on the decode results: propagate the error, or
continue with the value and the updated offset. -/
def dstep {α β : Type} (x : Except ScrollError (α × Nat))
    (f : α → Nat → Except ScrollError β) : Except ScrollError β :=
  match x with
  | .error er => .error er
  | .ok (v, o) => f v o

/-! ## Fixed records -/

/-- The header at the start of a minidump file (`MINIDUMP_HEADER`). -/
structure MINIDUMP_HEADER where
  signature : Nat
  version : Nat
  stream_count : Nat
  stream_directory_rva : Nat
  checksum : Nat
  time_date_stamp : Nat
  flags : Nat
deriving DecidableEq

/-- Derived `Pread` for `MINIDUMP_HEADER`: six `u32` fields then one `u64`,
read sequentially (32 bytes total). -/
def MINIDUMP_HEADER.try_from_ctx (src : Bytes) (e : Endian) :
    Except ScrollError (MINIDUMP_HEADER × Nat) :=
  dstep (gread (uintFromCtx e 4) src 0) fun signature o =>
  dstep (gread (uintFromCtx e 4) src o) fun version o =>
  dstep (gread (uintFromCtx e 4) src o) fun stream_count o =>
  dstep (gread (uintFromCtx e 4) src o) fun stream_directory_rva o =>
  dstep (gread (uintFromCtx e 4) src o) fun checksum o =>
  dstep (gread (uintFromCtx e 4) src o) fun time_date_stamp o =>
  dstep (gread (uintFromCtx e 8) src o) fun flags o =>
  .ok (⟨signature, version, stream_count, stream_directory_rva, checksum,
        time_date_stamp, flags⟩, o)

/-- A location within a minidump file (`MINIDUMP_LOCATION_DESCRIPTOR`). -/
structure MINIDUMP_LOCATION_DESCRIPTOR where
  data_size : Nat
  rva : Nat
deriving DecidableEq

/-- Derived `Pread` for `MINIDUMP_LOCATION_DESCRIPTOR`: two `u32` fields. -/
def MINIDUMP_LOCATION_DESCRIPTOR.try_from_ctx (src : Bytes) (e : Endian) :
    Except ScrollError (MINIDUMP_LOCATION_DESCRIPTOR × Nat) :=
  dstep (gread (uintFromCtx e 4) src 0) fun data_size o =>
  dstep (gread (uintFromCtx e 4) src o) fun rva o =>
  .ok (⟨data_size, rva⟩, o)

/-- Version information for a file (`VS_FIXEDFILEINFO`): thirteen `u32`
fields, 52 bytes. -/
structure VS_FIXEDFILEINFO where
  signature : Nat
  struct_version : Nat
  file_version_hi : Nat
  file_version_lo : Nat
  product_version_hi : Nat
  product_version_lo : Nat
  file_flags_mask : Nat
  file_flags : Nat
  file_os : Nat
  file_type : Nat
  file_subtype : Nat
  file_date_hi : Nat
  file_date_lo : Nat
deriving DecidableEq

/-- Derived `Pread` for `VS_FIXEDFILEINFO`: thirteen sequential `u32`s. -/
def VS_FIXEDFILEINFO.try_from_ctx (src : Bytes) (e : Endian) :
    Except ScrollError (VS_FIXEDFILEINFO × Nat) :=
  dstep (gread (uintFromCtx e 4) src 0) fun signature o =>
  dstep (gread (uintFromCtx e 4) src o) fun struct_version o =>
  dstep (gread (uintFromCtx e 4) src o) fun file_version_hi o =>
  dstep (gread (uintFromCtx e 4) src o) fun file_version_lo o =>
  dstep (gread (uintFromCtx e 4) src o) fun product_version_hi o =>
  dstep (gread (uintFromCtx e 4) src o) fun product_version_lo o =>
  dstep (gread (uintFromCtx e 4) src o) fun file_flags_mask o =>
  dstep (gread (uintFromCtx e 4) src o) fun file_flags o =>
  dstep (gread (uintFromCtx e 4) src o) fun file_os o =>
  dstep (gread (uintFromCtx e 4) src o) fun file_type o =>
  dstep (gread (uintFromCtx e 4) src o) fun file_subtype o =>
  dstep (gread (uintFromCtx e 4) src o) fun file_date_hi o =>
  dstep (gread (uintFromCtx e 4) src o) fun file_date_lo o =>
  .ok (⟨signature, struct_version, file_version_hi, file_version_lo,
        product_version_hi, product_version_lo, file_flags_mask, file_flags,
        file_os, file_type, file_subtype, file_date_hi, file_date_lo⟩, o)

/-- Information about a single module (`MINIDUMP_MODULE`): 108 bytes. -/
structure MINIDUMP_MODULE where
  base_of_image : Nat
  size_of_image : Nat
  checksum : Nat
  time_date_stamp : Nat
  module_name_rva : Nat
  version_info : VS_FIXEDFILEINFO
  cv_record : MINIDUMP_LOCATION_DESCRIPTOR
  misc_record : MINIDUMP_LOCATION_DESCRIPTOR
  reserved0 : Nat × Nat
  reserved1 : Nat × Nat
deriving DecidableEq

/-- Derived `Pread` for `MINIDUMP_MODULE`: `u64`, four `u32`s, the nested
`VS_FIXEDFILEINFO`, two nested location descriptors, and the two
`[u32; 2]` reserved fields (read element by element, as the derive does). -/
def MINIDUMP_MODULE.try_from_ctx (src : Bytes) (e : Endian) :
    Except ScrollError (MINIDUMP_MODULE × Nat) :=
  dstep (gread (uintFromCtx e 8) src 0) fun base_of_image o =>
  dstep (gread (uintFromCtx e 4) src o) fun size_of_image o =>
  dstep (gread (uintFromCtx e 4) src o) fun checksum o =>
  dstep (gread (uintFromCtx e 4) src o) fun time_date_stamp o =>
  dstep (gread (uintFromCtx e 4) src o) fun module_name_rva o =>
  dstep (gread (fun s => VS_FIXEDFILEINFO.try_from_ctx s e) src o) fun version_info o =>
  dstep (gread (fun s => MINIDUMP_LOCATION_DESCRIPTOR.try_from_ctx s e) src o) fun cv_record o =>
  dstep (gread (fun s => MINIDUMP_LOCATION_DESCRIPTOR.try_from_ctx s e) src o) fun misc_record o =>
  dstep (gread (uintFromCtx e 4) src o) fun reserved00 o =>
  dstep (gread (uintFromCtx e 4) src o) fun reserved01 o =>
  dstep (gread (uintFromCtx e 4) src o) fun reserved10 o =>
  dstep (gread (uintFromCtx e 4) src o) fun reserved11 o =>
  .ok (⟨base_of_image, size_of_image, checksum, time_date_stamp, module_name_rva,
        version_info, cv_record, misc_record, (reserved00, reserved01),
        (reserved10, reserved11)⟩, o)

/-! ## GUID and its two textual forms -/

/-- A GUID as specified in Rpcdce.h: `{data1: u32, data2: u16, data3: u16,
data4: [u8; 8]}`. -/
structure GUID where
  data1 : Nat
  data2 : Nat
  data3 : Nat
  data4 : Bytes
deriving DecidableEq

/-- Derived `Pread` for `GUID`: `u32`, `u16`, `u16`, then the eight bytes
of `data4` one by one. -/
def GUID.try_from_ctx (src : Bytes) (e : Endian) :
    Except ScrollError (GUID × Nat) :=
  dstep (gread (uintFromCtx e 4) src 0) fun data1 o =>
  dstep (gread (uintFromCtx e 2) src o) fun data2 o =>
  dstep (gread (uintFromCtx e 2) src o) fun data3 o =>
  dstep (gread (uintFromCtx e 1) src o) fun b0 o =>
  dstep (gread (uintFromCtx e 1) src o) fun b1 o =>
  dstep (gread (uintFromCtx e 1) src o) fun b2 o =>
  dstep (gread (uintFromCtx e 1) src o) fun b3 o =>
  dstep (gread (uintFromCtx e 1) src o) fun b4 o =>
  dstep (gread (uintFromCtx e 1) src o) fun b5 o =>
  dstep (gread (uintFromCtx e 1) src o) fun b6 o =>
  dstep (gread (uintFromCtx e 1) src o) fun b7 o =>
  .ok (⟨data1, data2, data3, [b0, b1, b2, b3, b4, b5, b6, b7]⟩, o)

/-- Lower-case hex digit, as Rust's `{:x}` produces. -/
def hexDigitLower (n : Nat) : Char :=
  if n < 10 then Char.ofNat (48 + n) else Char.ofNat (87 + n)

/-- Upper-case hex digit, as Rust's `{:X}` produces. -/
def hexDigitUpper (n : Nat) : Char :=
  if n < 10 then Char.ofNat (48 + n) else Char.ofNat (55 + n)

/-- `w` hex digits of `n`, most significant first: Rust's `{:0wx}` for
values that fit in `w` digits (every `GUID` field does: `u32` in 8 digits,
`u16` in 4, `u8` in 2). -/
def hexChars (digit : Nat → Char) : Nat → Nat → List Char
  | 0, _ => []
  | w + 1, n => hexChars digit w (n / 16) ++ [digit (n % 16)]

/-- Zero-padded lower-case hex of width `w`. -/
def hexLower (w n : Nat) : String := ⟨hexChars hexDigitLower w n⟩

/-- Zero-padded upper-case hex of width `w`. -/
def hexUpper (w n : Nat) : String := ⟨hexChars hexDigitUpper w n⟩

/-- The default `Display` of a `GUID`: hyphenated lower-case
(`{:08x}-{:04x}-{:04x}-{:02x}{:02x}-{:02x}{:02x}{:02x}{:02x}{:02x}{:02x}`),
the debugger convention. It reads only the four fields. -/
def GUID.display (g : GUID) : String :=
  hexLower 8 g.data1 ++ "-" ++ hexLower 4 g.data2 ++ "-" ++ hexLower 4 g.data3 ++ "-" ++
  hexLower 2 (g.data4.getD 0 0) ++ hexLower 2 (g.data4.getD 1 0) ++ "-" ++
  hexLower 2 (g.data4.getD 2 0) ++ hexLower 2 (g.data4.getD 3 0) ++
  hexLower 2 (g.data4.getD 4 0) ++ hexLower 2 (g.data4.getD 5 0) ++
  hexLower 2 (g.data4.getD 6 0) ++ hexLower 2 (g.data4.getD 7 0)

/-- The alternate (`{:#}`) `Display` of a `GUID`: compact upper-case with
no hyphens, the symbol-server convention. It reads only the four fields. -/
def GUID.displayAlternate (g : GUID) : String :=
  hexUpper 8 g.data1 ++ hexUpper 4 g.data2 ++ hexUpper 4 g.data3 ++
  hexUpper 2 (g.data4.getD 0 0) ++ hexUpper 2 (g.data4.getD 1 0) ++
  hexUpper 2 (g.data4.getD 2 0) ++ hexUpper 2 (g.data4.getD 3 0) ++
  hexUpper 2 (g.data4.getD 4 0) ++ hexUpper 2 (g.data4.getD 5 0) ++
  hexUpper 2 (g.data4.getD 6 0) ++ hexUpper 2 (g.data4.getD 7 0)

/-! ## Architecture context selector -/

/-- Valid bits in a `context_flags` for `ContextFlagsCpu`. -/
def CONTEXT_CPU_MASK : Nat := 0xffffff00

/-- The bitflags struct `ContextFlagsCpu`, represented by its `bits`. -/
structure ContextFlagsCpu where
  bits : Nat
deriving DecidableEq

def ContextFlagsCpu.CONTEXT_IA64 : ContextFlagsCpu := ⟨0x80000⟩
def ContextFlagsCpu.CONTEXT_SHX : ContextFlagsCpu := ⟨0xc0⟩
def ContextFlagsCpu.CONTEXT_ARM_OLD : ContextFlagsCpu := ⟨0x40⟩
def ContextFlagsCpu.CONTEXT_ALPHA : ContextFlagsCpu := ⟨0x20000⟩
def ContextFlagsCpu.CONTEXT_AMD64 : ContextFlagsCpu := ⟨0x100000⟩
def ContextFlagsCpu.CONTEXT_ARM : ContextFlagsCpu := ⟨0x40000000⟩
def ContextFlagsCpu.CONTEXT_ARM64 : ContextFlagsCpu := ⟨0x400000⟩
def ContextFlagsCpu.CONTEXT_ARM64_OLD : ContextFlagsCpu := ⟨0x80000000⟩
def ContextFlagsCpu.CONTEXT_MIPS : ContextFlagsCpu := ⟨0x40000⟩
def ContextFlagsCpu.CONTEXT_MIPS64 : ContextFlagsCpu := ⟨0x80000⟩
def ContextFlagsCpu.CONTEXT_PPC : ContextFlagsCpu := ⟨0x20000000⟩
def ContextFlagsCpu.CONTEXT_PPC64 : ContextFlagsCpu := ⟨0x1000000⟩
def ContextFlagsCpu.CONTEXT_SPARC : ContextFlagsCpu := ⟨0x10000000⟩
def ContextFlagsCpu.CONTEXT_X86 : ContextFlagsCpu := ⟨0x10000⟩

/-- bitflags' `Self::all().bits`: the union of every defined flag. -/
def ContextFlagsCpu.allBits : Nat :=
  0x80000 ||| 0xc0 ||| 0x40 ||| 0x20000 ||| 0x100000 ||| 0x40000000 |||
  0x400000 ||| 0x80000000 ||| 0x40000 ||| 0x80000 ||| 0x20000000 |||
  0x1000000 ||| 0x10000000 ||| 0x10000

/-- bitflags' `from_bits_truncate`: keep only the defined bits. -/
def ContextFlagsCpu.from_bits_truncate (b : Nat) : ContextFlagsCpu :=
  ⟨b &&& ContextFlagsCpu.allBits⟩

/-- `ContextFlagsCpu::from_flags`: mask `flags` with `CONTEXT_CPU_MASK`,
then truncate to the defined bits. -/
def ContextFlagsCpu.from_flags (flags : Nat) : ContextFlagsCpu :=
  ContextFlagsCpu.from_bits_truncate (flags &&& CONTEXT_CPU_MASK)

/-! ## Variable-length records -/

/-- A variable-length UTF-8-encoded string record (`MINIDUMP_UTF8_STRING`):
a `u32` byte count (not counting the NUL terminator) and the payload bytes
including the terminator. -/
structure MINIDUMP_UTF8_STRING where
  length : Nat
  buffer : Bytes
deriving DecidableEq

/-- Hand-written `TryFromCtx` for `MINIDUMP_UTF8_STRING`: read the `u32`
length, read `length + 1` bytes (payload plus NUL), then reject the record
with a `Custom` error when the data does not end with a NUL byte. -/
def MINIDUMP_UTF8_STRING.try_from_ctx (src : Bytes) (e : Endian) :
    Except ScrollError (MINIDUMP_UTF8_STRING × Nat) :=
  dstep (gread (uintFromCtx e 4) src 0) fun length o =>
  dstep (gread (sliceFromCtx (length + 1)) src o) fun data o =>
  if ([0] : Bytes).isSuffixOf data then .ok (⟨length, data⟩, o)
  else .error (.Custom "Minidump String does not end with NUL byte")

/-- CodeView debug information in the PDB 7.0 format (`CV_INFO_PDB70`):
`u32` signature, 16-byte `GUID`, `u32` age, then the PDB filename as the
remainder of the enclosing buffer. -/
structure CV_INFO_PDB70 where
  cv_signature : Nat
  signature : GUID
  age : Nat
  pdb_file_name : Bytes
deriving DecidableEq

/-- Hand-written `TryFromCtx` for `CV_INFO_PDB70`: the filename consumes
`src.len() - offset` bytes, i.e. whatever remains of the enclosing buffer. -/
def CV_INFO_PDB70.try_from_ctx (src : Bytes) (e : Endian) :
    Except ScrollError (CV_INFO_PDB70 × Nat) :=
  dstep (gread (uintFromCtx e 4) src 0) fun cv_signature o =>
  dstep (gread (fun s => GUID.try_from_ctx s e) src o) fun signature o =>
  dstep (gread (uintFromCtx e 4) src o) fun age o =>
  dstep (gread (sliceFromCtx (src.length - o)) src o) fun pdb_file_name o =>
  .ok (⟨cv_signature, signature, age, pdb_file_name⟩, o)

/-! ## Stream types -/

/-- The types of known minidump data streams (`MINIDUMP_STREAM_TYPE`). -/
inductive MINIDUMP_STREAM_TYPE where
  | UnusedStream
  | ReservedStream0
  | ReservedStream1
  | ThreadListStream
  | ModuleListStream
  | MemoryListStream
  | ExceptionStream
  | SystemInfoStream
  | ThreadExListStream
  | Memory64ListStream
  | CommentStreamA
  | CommentStreamW
  | HandleDataStream
  | FunctionTable
  | UnloadedModuleListStream
  | MiscInfoStream
  | MemoryInfoListStream
  | ThreadInfoListStream
  | HandleOperationListStream
  | TokenStream
  | JavaScriptDataStream
  | SystemMemoryInfoStream
  | ProcessVmCountersStream
  | IptTraceStream
  | ThreadNamesStream
  | ceStreamNull
  | ceStreamSystemInfo
  | ceStreamException
  | ceStreamModuleList
  | ceStreamProcessList
  | ceStreamThreadList
  | ceStreamThreadContextList
  | ceStreamThreadCallStackList
  | ceStreamMemoryVirtualList
  | ceStreamMemoryPhysicalList
  | ceStreamBucketParameters
  | ceStreamProcessModuleMap
  | ceStreamDiagnosisList
  | LastReservedStream
  | BreakpadInfoStream
  | AssertionInfoStream
  | LinuxCpuInfo
  | LinuxProcStatus
  | LinuxLsbRelease
  | LinuxCmdLine
  | LinuxEnviron
  | LinuxAuxv
  | LinuxMaps
  | LinuxDsoDebug
  | CrashpadInfoStream
  | MozMacosCrashInfoStream
deriving DecidableEq

/-- `impl From<MINIDUMP_STREAM_TYPE> for u32` (`ty as u32`): the `repr(u32)`
discriminant of each stream type. -/
def MINIDUMP_STREAM_TYPE.toU32 : MINIDUMP_STREAM_TYPE → Nat
  | .UnusedStream => 0
  | .ReservedStream0 => 1
  | .ReservedStream1 => 2
  | .ThreadListStream => 3
  | .ModuleListStream => 4
  | .MemoryListStream => 5
  | .ExceptionStream => 6
  | .SystemInfoStream => 7
  | .ThreadExListStream => 8
  | .Memory64ListStream => 9
  | .CommentStreamA => 10
  | .CommentStreamW => 11
  | .HandleDataStream => 12
  | .FunctionTable => 13
  | .UnloadedModuleListStream => 14
  | .MiscInfoStream => 15
  | .MemoryInfoListStream => 16
  | .ThreadInfoListStream => 17
  | .HandleOperationListStream => 18
  | .TokenStream => 19
  | .JavaScriptDataStream => 20
  | .SystemMemoryInfoStream => 21
  | .ProcessVmCountersStream => 22
  | .IptTraceStream => 23
  | .ThreadNamesStream => 24
  | .ceStreamNull => 25
  | .ceStreamSystemInfo => 26
  | .ceStreamException => 27
  | .ceStreamModuleList => 28
  | .ceStreamProcessList => 29
  | .ceStreamThreadList => 30
  | .ceStreamThreadContextList => 31
  | .ceStreamThreadCallStackList => 32
  | .ceStreamMemoryVirtualList => 33
  | .ceStreamMemoryPhysicalList => 34
  | .ceStreamBucketParameters => 35
  | .ceStreamProcessModuleMap => 36
  | .ceStreamDiagnosisList => 37
  | .LastReservedStream => 0x0000ffff
  | .BreakpadInfoStream => 0x47670001
  | .AssertionInfoStream => 0x47670002
  | .LinuxCpuInfo => 0x47670003
  | .LinuxProcStatus => 0x47670004
  | .LinuxLsbRelease => 0x47670005
  | .LinuxCmdLine => 0x47670006
  | .LinuxEnviron => 0x47670007
  | .LinuxAuxv => 0x47670008
  | .LinuxMaps => 0x47670009
  | .LinuxDsoDebug => 0x4767000A
  | .CrashpadInfoStream => 0x43500001
  | .MozMacosCrashInfoStream => 0x4d7a0001

/-- The derived `FromPrimitive::from_u32` of `MINIDUMP_STREAM_TYPE`:
`Some` of the variant whose discriminant equals `n`, `None` otherwise
(unknown values are legal, never an error). -/
def MINIDUMP_STREAM_TYPE.from_u32 : Nat → Option MINIDUMP_STREAM_TYPE
  | 0 => some .UnusedStream
  | 1 => some .ReservedStream0
  | 2 => some .ReservedStream1
  | 3 => some .ThreadListStream
  | 4 => some .ModuleListStream
  | 5 => some .MemoryListStream
  | 6 => some .ExceptionStream
  | 7 => some .SystemInfoStream
  | 8 => some .ThreadExListStream
  | 9 => some .Memory64ListStream
  | 10 => some .CommentStreamA
  | 11 => some .CommentStreamW
  | 12 => some .HandleDataStream
  | 13 => some .FunctionTable
  | 14 => some .UnloadedModuleListStream
  | 15 => some .MiscInfoStream
  | 16 => some .MemoryInfoListStream
  | 17 => some .ThreadInfoListStream
  | 18 => some .HandleOperationListStream
  | 19 => some .TokenStream
  | 20 => some .JavaScriptDataStream
  | 21 => some .SystemMemoryInfoStream
  | 22 => some .ProcessVmCountersStream
  | 23 => some .IptTraceStream
  | 24 => some .ThreadNamesStream
  | 25 => some .ceStreamNull
  | 26 => some .ceStreamSystemInfo
  | 27 => some .ceStreamException
  | 28 => some .ceStreamModuleList
  | 29 => some .ceStreamProcessList
  | 30 => some .ceStreamThreadList
  | 31 => some .ceStreamThreadContextList
  | 32 => some .ceStreamThreadCallStackList
  | 33 => some .ceStreamMemoryVirtualList
  | 34 => some .ceStreamMemoryPhysicalList
  | 35 => some .ceStreamBucketParameters
  | 36 => some .ceStreamProcessModuleMap
  | 37 => some .ceStreamDiagnosisList
  | 0x0000ffff => some .LastReservedStream
  | 0x47670001 => some .BreakpadInfoStream
  | 0x47670002 => some .AssertionInfoStream
  | 0x47670003 => some .LinuxCpuInfo
  | 0x47670004 => some .LinuxProcStatus
  | 0x47670005 => some .LinuxLsbRelease
  | 0x47670006 => some .LinuxCmdLine
  | 0x47670007 => some .LinuxEnviron
  | 0x47670008 => some .LinuxAuxv
  | 0x47670009 => some .LinuxMaps
  | 0x4767000A => some .LinuxDsoDebug
  | 0x43500001 => some .CrashpadInfoStream
  | 0x4d7a0001 => some .MozMacosCrashInfoStream
  | _ => none

/-! ## The MISC_INFO versioned record family -/

/-- The common `V1` prefix of the misc-info family (`MINIDUMP_MISC_INFO`):
six `u32` fields, 24 bytes, the first being the `size_of_info`
discriminator. -/
structure MINIDUMP_MISC_INFO where
  size_of_info : Nat
  flags1 : Nat
  process_id : Nat
  process_create_time : Nat
  process_user_time : Nat
  process_kernel_time : Nat
deriving DecidableEq

/-- Byte size of `MINIDUMP_MISC_INFO` (six `u32`s). -/
def MISC_INFO_SIZE_V1 : Nat := 24

/-- Byte size of `MINIDUMP_MISC_INFO_2` (adds five `u32`s). -/
def MISC_INFO_SIZE_V2 : Nat := 44

/-- Byte size of `MINIDUMP_MISC_INFO_3` (adds four `u32`s and the 172-byte
`TIME_ZONE_INFORMATION`). -/
def MISC_INFO_SIZE_V3 : Nat := 232

/-- Byte size of `MINIDUMP_MISC_INFO_4` (adds `[u16; 260]` and `[u16; 40]`). -/
def MISC_INFO_SIZE_V4 : Nat := 832

/-- Byte size of `MINIDUMP_MISC_INFO_5` (adds the 528-byte
`XSTATE_CONFIG_FEATURE_MSC_INFO` and a `u32`). -/
def MISC_INFO_SIZE_V5 : Nat := 1364

/-- Outcome class of a versioned-family decode: either every requested
version was present, or the record was truncated to a lower version
(a warning, not a hard failure). -/
inductive VersionedOutcome where
  | ok
  | truncated
deriving DecidableEq

/-- Result of decoding the misc-info family: the always-present `V1`
fields, and one optional byte region per later version holding exactly
that version's appended fields when populated. -/
structure MiscInfoFamily where
  v1 : MINIDUMP_MISC_INFO
  v2_extra : Option Bytes
  v3_extra : Option Bytes
  v4_extra : Option Bytes
  v5_extra : Option Bytes
  effective_version : Nat
deriving DecidableEq

/-- Modelled from the spec: the highest misc-info version whose declared
total size fits in `n` bytes (the struct declarations are in
src/minidump-common/src/format.rs; the versioned-family decode algorithm of
spec section 4.3 is implemented outside this source file). -/
def miscInfoVersionForSize (n : Nat) : Nat :=
  if MISC_INFO_SIZE_V5 ≤ n then 5
  else if MISC_INFO_SIZE_V4 ≤ n then 4
  else if MISC_INFO_SIZE_V3 ≤ n then 3
  else if MISC_INFO_SIZE_V2 ≤ n then 2
  else 1

/-- Modelled from the spec (section 4.3 tie-break): the effective version is
the smallest of the requested version, the version the buffer length can
hold, and the version the `size_of_info` discriminator declares. -/
def miscInfoEffectiveVersion (requested bufLen size_of_info : Nat) : Nat :=
  min requested (min (miscInfoVersionForSize bufLen) (miscInfoVersionForSize size_of_info))

/-- Read a version's appended byte region when `present`, else leave it
unpopulated without consuming anything. -/
def greadOptSlice (present : Bool) (size : Nat) (src : Bytes) (offset : Nat) :
    Except ScrollError (Option Bytes × Nat) :=
  if present then
    dstep (gread (sliceFromCtx size) src offset) fun d o => .ok (some d, o)
  else .ok (none, offset)

/-- Modelled from the spec: the versioned-family decoder for the misc-info
family (spec sections 4.3 and 8, "Version monotonicity"). This algorithm is
not part of src/minidump-common/src/format.rs, which only declares
`MINIDUMP_MISC_INFO` .. `MINIDUMP_MISC_INFO_5`; following the spec: decode
the fixed common prefix, read its `size_of_info` discriminator, populate
each later version's appended fields only while both the buffer and the
discriminator say that version is present (never reading past either), and
signal `truncated` instead of a hard failure when the effective version is
lower than the requested one. -/
def decodeMiscInfoFamily (requested : Nat) (src : Bytes) (e : Endian) :
    Except ScrollError (MiscInfoFamily × VersionedOutcome) :=
  dstep (gread (uintFromCtx e 4) src 0) fun size_of_info o =>
  dstep (gread (uintFromCtx e 4) src o) fun flags1 o =>
  dstep (gread (uintFromCtx e 4) src o) fun process_id o =>
  dstep (gread (uintFromCtx e 4) src o) fun process_create_time o =>
  dstep (gread (uintFromCtx e 4) src o) fun process_user_time o =>
  dstep (gread (uintFromCtx e 4) src o) fun process_kernel_time o =>
  dstep (greadOptSlice (decide (2 ≤ miscInfoEffectiveVersion requested src.length size_of_info))
      (MISC_INFO_SIZE_V2 - MISC_INFO_SIZE_V1) src o) fun v2_extra o =>
  dstep (greadOptSlice (decide (3 ≤ miscInfoEffectiveVersion requested src.length size_of_info))
      (MISC_INFO_SIZE_V3 - MISC_INFO_SIZE_V2) src o) fun v3_extra o =>
  dstep (greadOptSlice (decide (4 ≤ miscInfoEffectiveVersion requested src.length size_of_info))
      (MISC_INFO_SIZE_V4 - MISC_INFO_SIZE_V3) src o) fun v4_extra o =>
  dstep (greadOptSlice (decide (5 ≤ miscInfoEffectiveVersion requested src.length size_of_info))
      (MISC_INFO_SIZE_V5 - MISC_INFO_SIZE_V4) src o) fun v5_extra o =>
  .ok (⟨⟨size_of_info, flags1, process_id, process_create_time,
         process_user_time, process_kernel_time⟩,
        v2_extra, v3_extra, v4_extra, v5_extra,
        miscInfoEffectiveVersion requested src.length size_of_info⟩,
       if miscInfoEffectiveVersion requested src.length size_of_info < requested
       then .truncated else .ok)

/-! ## The macOS crash-info string records -/

/-- Variable-length string data for `MINIDUMP_MAC_CRASH_INFO_RECORD_4`
(`MINIDUMP_MAC_CRASH_INFO_RECORD_STRINGS_4`): five strings. -/
structure MINIDUMP_MAC_CRASH_INFO_RECORD_STRINGS_4 where
  module_path : String
  message : String
  signature_string : String
  backtrace : String
  message2 : String
deriving DecidableEq

/-- The generated `num_strings()` for
`MINIDUMP_MAC_CRASH_INFO_RECORD_STRINGS_4`: it has five string fields. -/
def MINIDUMP_MAC_CRASH_INFO_RECORD_STRINGS_4.num_strings : Nat := 5

/-- The generated `set_string(idx, string)` for
`MINIDUMP_MAC_CRASH_INFO_RECORD_STRINGS_4`: walk the fields in declaration
order and store into the `idx`-th one. The generated Rust code ends with
`panic!("string index out of bounds ...")` when `idx` names no field; the
embedding returns `none` for that process-aborting branch and `some` of the
updated record for an ordinary return. -/
def MINIDUMP_MAC_CRASH_INFO_RECORD_STRINGS_4.set_string
    (r : MINIDUMP_MAC_CRASH_INFO_RECORD_STRINGS_4) (idx : Nat) (s : String) :
    Option MINIDUMP_MAC_CRASH_INFO_RECORD_STRINGS_4 :=
  if 0 = idx then some { r with module_path := s }
  else if 1 = idx then some { r with message := s }
  else if 2 = idx then some { r with signature_string := s }
  else if 3 = idx then some { r with backtrace := s }
  else if 4 = idx then some { r with message2 := s }
  else none

/-! ## Basic facts about the primitive codec -/

theorem dstep_ok {α β : Type} (v : α) (o : Nat) (f : α → Nat → Except ScrollError β) :
    dstep (.ok (v, o)) f = f v o := rfl

theorem dstep_err {α β : Type} (er : ScrollError) (f : α → Nat → Except ScrollError β) :
    dstep (.error er) f = .error er := rfl

theorem gread_ok {α : Type} (dec : Bytes → Except ScrollError (α × Nat)) (src : Bytes)
    (offset o2 : Nat) (v : α) (sz : Nat) (h : offset < src.length)
    (hd : dec (src.drop offset) = .ok (v, sz)) (ho : o2 = offset + sz) :
    gread dec src offset = .ok (v, o2) := by
  unfold gread
  rw [if_neg (by omega), hd, ho]

theorem gread_errAt {α : Type} (dec : Bytes → Except ScrollError (α × Nat)) (src : Bytes)
    (offset : Nat) (er : ScrollError) (h : offset < src.length)
    (hd : dec (src.drop offset) = .error er) :
    gread dec src offset = .error er := by
  unfold gread
  rw [if_neg (by omega), hd]

theorem gread_badOffset {α : Type} (dec : Bytes → Except ScrollError (α × Nat)) (src : Bytes)
    (offset : Nat) (h : src.length ≤ offset) :
    gread dec src offset = .error (.BadOffset offset) := by
  unfold gread
  rw [if_pos h]

theorem uintFromCtx_ok (e : Endian) (n : Nat) (src : Bytes) (h : n ≤ src.length) :
    uintFromCtx e n src = .ok (uintValue e (src.take n), n) := by
  unfold uintFromCtx
  rw [if_neg (by omega)]

theorem uintFromCtx_tooBig (e : Endian) (n : Nat) (src : Bytes) (h : src.length < n) :
    uintFromCtx e n src = .error (.TooBig n src.length) := by
  unfold uintFromCtx
  rw [if_pos h]

theorem sliceFromCtx_ok (size : Nat) (src : Bytes) (h : size ≤ src.length) :
    sliceFromCtx size src = .ok (src.take size, size) := by
  unfold sliceFromCtx
  rw [if_neg (by omega)]

theorem sliceFromCtx_tooBig (size : Nat) (src : Bytes) (h : src.length < size) :
    sliceFromCtx size src = .error (.TooBig size src.length) := by
  unfold sliceFromCtx
  rw [if_pos h]

theorem gread_uint_ok (e : Endian) (n : Nat) (src : Bytes) (offset o2 : Nat)
    (h : offset + n ≤ src.length) (hn : 0 < n) (ho : o2 = offset + n) :
    gread (uintFromCtx e n) src offset =
      .ok (uintValue e ((src.drop offset).take n), o2) := by
  apply gread_ok _ _ _ _ _ n (by omega) _ ho
  apply uintFromCtx_ok
  rw [List.length_drop]
  omega

theorem gread_uint_tooBig (e : Endian) (n : Nat) (src : Bytes) (offset : Nat)
    (h : offset < src.length) (h2 : src.length < offset + n) :
    gread (uintFromCtx e n) src offset = .error (.TooBig n (src.length - offset)) := by
  apply gread_errAt _ _ _ _ h
  rw [uintFromCtx_tooBig e n _ (by rw [List.length_drop]; omega), List.length_drop]

theorem gread_slice_ok (size : Nat) (src : Bytes) (offset o2 : Nat)
    (h : offset < src.length) (h2 : size ≤ src.length - offset) (ho : o2 = offset + size) :
    gread (sliceFromCtx size) src offset = .ok ((src.drop offset).take size, o2) := by
  apply gread_ok _ _ _ _ _ size h _ ho
  apply sliceFromCtx_ok
  rw [List.length_drop]
  omega

theorem gread_slice_tooBig (size : Nat) (src : Bytes) (offset : Nat)
    (h : offset < src.length) (h2 : src.length - offset < size) :
    gread (sliceFromCtx size) src offset = .error (.TooBig size (src.length - offset)) := by
  apply gread_errAt _ _ _ _ h
  rw [sliceFromCtx_tooBig size _ (by rw [List.length_drop]; omega), List.length_drop]

theorem gread_inv {α : Type} (dec : Bytes → Except ScrollError (α × Nat)) (src : Bytes)
    (offset : Nat) (v : α) (o2 : Nat) (h : gread dec src offset = .ok (v, o2)) :
    offset < src.length ∧ ∃ sz, dec (src.drop offset) = .ok (v, sz) ∧ o2 = offset + sz := by
  unfold gread at h
  split at h
  · cases h
  · next hlt =>
    refine ⟨by omega, ?_⟩
    split at h
    · cases h
    · next v2 sz heq =>
      simp only [Except.ok.injEq, Prod.mk.injEq] at h
      exact ⟨sz, by rw [heq, h.1], h.2.symm⟩

theorem uintFromCtx_inv (e : Endian) (n : Nat) (src : Bytes) (v sz : Nat)
    (h : uintFromCtx e n src = .ok (v, sz)) :
    v = uintValue e (src.take n) ∧ sz = n ∧ n ≤ src.length := by
  unfold uintFromCtx at h
  split at h
  · cases h
  · next hle =>
    simp only [Except.ok.injEq, Prod.mk.injEq] at h
    exact ⟨h.1.symm, h.2.symm, by omega⟩

theorem sliceFromCtx_inv (size : Nat) (src : Bytes) (d : Bytes) (sz : Nat)
    (h : sliceFromCtx size src = .ok (d, sz)) :
    d = src.take size ∧ sz = size ∧ size ≤ src.length := by
  unfold sliceFromCtx at h
  split at h
  · cases h
  · next hle =>
    simp only [Except.ok.injEq, Prod.mk.injEq] at h
    exact ⟨h.1.symm, h.2.symm, by omega⟩

/-! ## Decode-success lemmas for the fixed records -/

theorem vs_fixedfileinfo_decode_ok (src : Bytes) (e : Endian) (h : 52 ≤ src.length) :
    ∃ v, VS_FIXEDFILEINFO.try_from_ctx src e = .ok (v, 52) := by
  exact ⟨_, by
    unfold VS_FIXEDFILEINFO.try_from_ctx
    rw [gread_uint_ok e 4 src 0 4 (by omega) (by omega) (by omega), dstep_ok,
      gread_uint_ok e 4 src 4 8 (by omega) (by omega) (by omega), dstep_ok,
      gread_uint_ok e 4 src 8 12 (by omega) (by omega) (by omega), dstep_ok,
      gread_uint_ok e 4 src 12 16 (by omega) (by omega) (by omega), dstep_ok,
      gread_uint_ok e 4 src 16 20 (by omega) (by omega) (by omega), dstep_ok,
      gread_uint_ok e 4 src 20 24 (by omega) (by omega) (by omega), dstep_ok,
      gread_uint_ok e 4 src 24 28 (by omega) (by omega) (by omega), dstep_ok,
      gread_uint_ok e 4 src 28 32 (by omega) (by omega) (by omega), dstep_ok,
      gread_uint_ok e 4 src 32 36 (by omega) (by omega) (by omega), dstep_ok,
      gread_uint_ok e 4 src 36 40 (by omega) (by omega) (by omega), dstep_ok,
      gread_uint_ok e 4 src 40 44 (by omega) (by omega) (by omega), dstep_ok,
      gread_uint_ok e 4 src 44 48 (by omega) (by omega) (by omega), dstep_ok,
      gread_uint_ok e 4 src 48 52 (by omega) (by omega) (by omega), dstep_ok]⟩

theorem location_descriptor_decode_ok (src : Bytes) (e : Endian)
    (h : 8 ≤ src.length) :
    ∃ v, MINIDUMP_LOCATION_DESCRIPTOR.try_from_ctx src e = .ok (v, 8) := by
  exact ⟨_, by
    unfold MINIDUMP_LOCATION_DESCRIPTOR.try_from_ctx
    rw [gread_uint_ok e 4 src 0 4 (by omega) (by omega) (by omega), dstep_ok,
      gread_uint_ok e 4 src 4 8 (by omega) (by omega) (by omega), dstep_ok]⟩

theorem guid_decode_ok (src : Bytes) (e : Endian) (h : 16 ≤ src.length) :
    ∃ g, GUID.try_from_ctx src e = .ok (g, 16) := by
  exact ⟨_, by
    unfold GUID.try_from_ctx
    rw [gread_uint_ok e 4 src 0 4 (by omega) (by omega) (by omega), dstep_ok,
      gread_uint_ok e 2 src 4 6 (by omega) (by omega) (by omega), dstep_ok,
      gread_uint_ok e 2 src 6 8 (by omega) (by omega) (by omega), dstep_ok,
      gread_uint_ok e 1 src 8 9 (by omega) (by omega) (by omega), dstep_ok,
      gread_uint_ok e 1 src 9 10 (by omega) (by omega) (by omega), dstep_ok,
      gread_uint_ok e 1 src 10 11 (by omega) (by omega) (by omega), dstep_ok,
      gread_uint_ok e 1 src 11 12 (by omega) (by omega) (by omega), dstep_ok,
      gread_uint_ok e 1 src 12 13 (by omega) (by omega) (by omega), dstep_ok,
      gread_uint_ok e 1 src 13 14 (by omega) (by omega) (by omega), dstep_ok,
      gread_uint_ok e 1 src 14 15 (by omega) (by omega) (by omega), dstep_ok,
      gread_uint_ok e 1 src 15 16 (by omega) (by omega) (by omega), dstep_ok]⟩

/-! ## Claim theorems -/

/-- Claim C3: for the GUID `{data1: 10, data2: 11, data3: 12,
data4: [1,2,3,4,5,6,7,8]}`, the default (debugger) formatting is exactly
`"0000000a-000b-000c-0102-030405060708"` and the alternate (symbol-server)
formatting is exactly `"0000000A000B000C0102030405060708"`. Both
`GUID.display` and `GUID.displayAlternate` are plain functions of the GUID
value, so they depend on nothing but the field values. -/
theorem guid_two_display_forms :
    GUID.display ⟨10, 11, 12, [1, 2, 3, 4, 5, 6, 7, 8]⟩ =
      "0000000a-000b-000c-0102-030405060708" ∧
    GUID.displayAlternate ⟨10, 11, 12, [1, 2, 3, 4, 5, 6, 7, 8]⟩ =
      "0000000A000B000C0102030405060708" := by
  constructor <;> rfl

/-- Claim C5: `ContextFlagsCpu::from_flags` masks off non-architecture bits
before selecting: for every flags value
`from_flags flags = from_flags (flags &&& CONTEXT_CPU_MASK)` with
`CONTEXT_CPU_MASK = 0xffffff00`, the low 8 bits never influence the result,
and `from_flags 0x00010000` is exactly the `CONTEXT_X86` flag and no other
bit. -/
theorem contextFlagsCpu_from_flags_masks :
    (∀ flags : Nat, ContextFlagsCpu.from_flags flags =
        ContextFlagsCpu.from_flags (flags &&& CONTEXT_CPU_MASK)) ∧
    CONTEXT_CPU_MASK = 0xffffff00 ∧
    (∀ f l₁ l₂ : Nat, l₁ < 256 → l₂ < 256 →
        ContextFlagsCpu.from_flags (256 * f + l₁) =
          ContextFlagsCpu.from_flags (256 * f + l₂)) ∧
    ContextFlagsCpu.from_flags 0x00010000 = ContextFlagsCpu.CONTEXT_X86 := by
  have land_idem : ∀ a m : Nat, a &&& m &&& m = a &&& m := by
    intro a m
    apply Nat.eq_of_testBit_eq
    intro i
    simp [Nat.testBit_land, Bool.and_assoc]
  refine ⟨?_, rfl, ?_, by decide⟩
  · intro flags
    unfold ContextFlagsCpu.from_flags
    rw [land_idem]
  · intro f l₁ l₂ h₁ h₂
    have key : ∀ l, l < 256 →
        (256 * f + l) &&& CONTEXT_CPU_MASK = (256 * f) &&& CONTEXT_CPU_MASK := by
      intro l hl
      have ed : ∀ x, x < 256 → (256 * f + x) >>> 8 = f := by
        intro x hx
        rw [Nat.shiftRight_eq_div_pow, show (2 : Nat) ^ 8 = 256 from by norm_num,
            Nat.mul_add_div (by omega), Nat.div_eq_of_lt hx, Nat.add_zero]
      apply Nat.eq_of_testBit_eq
      intro i
      rw [Nat.testBit_land, Nat.testBit_land]
      rcases Nat.lt_or_ge i 8 with hi | hi
      · have hm : Nat.testBit CONTEXT_CPU_MASK i = false := by
          interval_cases i <;> decide
        rw [hm, Bool.and_false, Bool.and_false]
      · obtain ⟨k, rfl⟩ : ∃ k, i = 8 + k := ⟨i - 8, by omega⟩
        have e1 : ∀ x : Nat, Nat.testBit x (8 + k) = Nat.testBit (x >>> 8) k := by
          intro x
          rw [Nat.testBit_shiftRight]
        rw [e1 (256 * f + l), e1 (256 * f), ed l hl,
            show 256 * f = 256 * f + 0 from by omega, ed 0 (by omega)]
    unfold ContextFlagsCpu.from_flags
    rw [key l₁ h₁, key l₂ h₂]

/-- Claim C6: stream-type symbol lookup is total and round-trips: `from_u32`
is a total function into `Option` (`some` exactly at the enumerated
discriminants, `none` otherwise), and `from_u32 (u32::from t) = some t`
for every known stream type `t`. -/
theorem streamType_symbol_totality :
    (∀ t, MINIDUMP_STREAM_TYPE.from_u32 (MINIDUMP_STREAM_TYPE.toU32 t) = some t) ∧
    (∀ raw t, MINIDUMP_STREAM_TYPE.from_u32 raw = some t →
        MINIDUMP_STREAM_TYPE.toU32 t = raw) ∧
    (∀ raw, (MINIDUMP_STREAM_TYPE.from_u32 raw).isSome = true ↔
        ∃ t, MINIDUMP_STREAM_TYPE.toU32 t = raw) := by
  have sound : ∀ raw t, MINIDUMP_STREAM_TYPE.from_u32 raw = some t →
      MINIDUMP_STREAM_TYPE.toU32 t = raw := by
    intro raw t h
    unfold MINIDUMP_STREAM_TYPE.from_u32 at h
    split at h
    all_goals first
      | (injection h with h2; subst h2; rfl)
      | cases h
  refine ⟨?_, sound, ?_⟩
  · intro t
    cases t <;> decide
  · intro raw
    constructor
    · intro hs
      cases heq : MINIDUMP_STREAM_TYPE.from_u32 raw with
      | none => rw [heq] at hs; cases hs
      | some t => exact ⟨t, sound raw t heq⟩
    · rintro ⟨t, rfl⟩
      cases t <;> decide

/-- Claim C6 witness: applying the soundness direction at the concrete raw
value 4, which maps to the module-list stream. -/
theorem streamType_symbol_totality_witness :
    MINIDUMP_STREAM_TYPE.toU32 .ModuleListStream = 4 :=
  streamType_symbol_totality.2.1 4 .ModuleListStream (by decide)

/-- Claim C9 counterexample: `set_string` with index 5 (= `num_strings()`)
on a `MINIDUMP_MAC_CRASH_INFO_RECORD_STRINGS_4` reaches the generated
`panic!("string index out of bounds ...")` branch (modelled as `none`),
i.e. it aborts instead of returning an ordinary outcome. -/
theorem set_string_out_of_bounds_counterexample :
    MINIDUMP_MAC_CRASH_INFO_RECORD_STRINGS_4.set_string ⟨"", "", "", "", ""⟩ 5 "x" = none ∧
    (MINIDUMP_MAC_CRASH_INFO_RECORD_STRINGS_4.set_string
        ⟨"", "", "", "", ""⟩ 5 "x").isSome = false := by
  decide

/-- Claim C9 (amended): `set_string(idx, s)` returns as an ordinary outcome
exactly when `idx < num_strings()`; for `idx >= num_strings()` it panics
(process-fatal by default) instead of returning. -/
theorem set_string_panics_iff_out_of_bounds
    (r : MINIDUMP_MAC_CRASH_INFO_RECORD_STRINGS_4) (idx : Nat) (s : String) :
    (idx < MINIDUMP_MAC_CRASH_INFO_RECORD_STRINGS_4.num_strings →
      (r.set_string idx s).isSome = true) ∧
    (MINIDUMP_MAC_CRASH_INFO_RECORD_STRINGS_4.num_strings ≤ idx →
      r.set_string idx s = none) := by
  unfold MINIDUMP_MAC_CRASH_INFO_RECORD_STRINGS_4.num_strings
  constructor
  · intro h
    unfold MINIDUMP_MAC_CRASH_INFO_RECORD_STRINGS_4.set_string
    interval_cases idx <;> rfl
  · intro h
    unfold MINIDUMP_MAC_CRASH_INFO_RECORD_STRINGS_4.set_string
    split_ifs <;> first | rfl | omega

/-- Claim C9 witness: storing at index 0 returns an ordinary outcome. -/
theorem set_string_panics_iff_out_of_bounds_witness :
    (MINIDUMP_MAC_CRASH_INFO_RECORD_STRINGS_4.set_string
        ⟨"", "", "", "", ""⟩ 0 "x").isSome = true :=
  (set_string_panics_iff_out_of_bounds ⟨"", "", "", "", ""⟩ 0 "x").1 (by decide)

/-- Claim C5 witness: the low byte does not influence the selector at a
concrete input (both flag words have the AMD64 bit set and differ only in
the low 8 bits). -/
theorem contextFlagsCpu_from_flags_masks_witness :
    ContextFlagsCpu.from_flags (256 * 4096 + 3) =
      ContextFlagsCpu.from_flags (256 * 4096 + 200) :=
  contextFlagsCpu_from_flags_masks.2.2.1 4096 3 200 (by decide) (by decide)

/-- Claim C2 counterexample: for the length-5 record `"hello"` with the
trailing NUL removed, the decoder fails with scroll's `TooBig` — an
OutOfBounds-class error — and not with the MissingTerminator-class `Custom`
error the claim names for this input. -/
theorem utf8_missing_nul_counterexample :
    MINIDUMP_UTF8_STRING.try_from_ctx [5, 0, 0, 0, 104, 101, 108, 108, 111] .le =
      .error (.TooBig 6 5) ∧
    (ScrollError.TooBig 6 5).isMissingTerminator = false := by
  decide

/-- Claim C2 (amended): with `length = 5` and payload `"hello\0"` the record
decodes to the string `"hello"` (the buffer keeps the NUL); with the
trailing NUL removed the read of `length + 1` bytes runs past the buffer
end and fails with an OutOfBounds-class error (`TooBig`); when the byte
after the declared length is present but not NUL the decoder fails with
the MissingTerminator-class `Custom` error. -/
theorem utf8_scenario_amended :
    MINIDUMP_UTF8_STRING.try_from_ctx [5, 0, 0, 0, 104, 101, 108, 108, 111, 0] .le =
      .ok (⟨5, [104, 101, 108, 108, 111, 0]⟩, 10) ∧
    ([104, 101, 108, 108, 111, 0] : Bytes).dropLast = "hello".toList.map Char.toNat ∧
    MINIDUMP_UTF8_STRING.try_from_ctx [5, 0, 0, 0, 104, 101, 108, 108, 111] .le =
      .error (.TooBig 6 5) ∧
    (ScrollError.TooBig 6 5).isOutOfBounds = true ∧
    MINIDUMP_UTF8_STRING.try_from_ctx [5, 0, 0, 0, 104, 101, 108, 108, 111, 88] .le =
      .error (.Custom "Minidump String does not end with NUL byte") ∧
    (ScrollError.Custom "Minidump String does not end with NUL byte").isMissingTerminator
      = true := by
  refine ⟨by decide, by decide, by decide, by decide, by decide, by decide⟩

/-- Claim C4: decoding from a buffer one byte shorter than the minimum
required size returns an OutOfBounds-class error value, never a panic or an
out-of-range read (the embedded decoders are total functions). For
`MINIDUMP_HEADER` (32 bytes needed) a 31-byte buffer fails with
`TooBig 8 7`; for `MINIDUMP_UTF8_STRING` (4 + length + 1 bytes needed) a
buffer of `4 + length` bytes fails with an OutOfBounds-class error,
whatever the byte values. -/
theorem decode_one_byte_short_out_of_bounds :
    (∀ (src : Bytes) (e : Endian), src.length = 31 →
      MINIDUMP_HEADER.try_from_ctx src e = .error (.TooBig 8 7)) ∧
    (∀ (src : Bytes) (e : Endian), src.length = 4 + uintValue e (src.take 4) →
      ∃ er, MINIDUMP_UTF8_STRING.try_from_ctx src e = .error er ∧
        er.isOutOfBounds = true) := by
  constructor
  · intro src e h
    unfold MINIDUMP_HEADER.try_from_ctx
    rw [gread_uint_ok e 4 src 0 4 (by omega) (by omega) (by omega), dstep_ok,
        gread_uint_ok e 4 src 4 8 (by omega) (by omega) (by omega), dstep_ok,
        gread_uint_ok e 4 src 8 12 (by omega) (by omega) (by omega), dstep_ok,
        gread_uint_ok e 4 src 12 16 (by omega) (by omega) (by omega), dstep_ok,
        gread_uint_ok e 4 src 16 20 (by omega) (by omega) (by omega), dstep_ok,
        gread_uint_ok e 4 src 20 24 (by omega) (by omega) (by omega), dstep_ok,
        gread_uint_tooBig e 8 src 24 (by omega) (by omega), dstep_err, h]
  · intro src e h
    have h4 : uintValue e ((src.drop 0).take 4) = uintValue e (src.take 4) := by
      rw [List.drop_zero]
    rcases Nat.eq_zero_or_pos (uintValue e (src.take 4)) with h0 | h0
    · refine ⟨.BadOffset 4, ?_, rfl⟩
      unfold MINIDUMP_UTF8_STRING.try_from_ctx
      rw [gread_uint_ok e 4 src 0 4 (by omega) (by omega) (by omega), dstep_ok,
          gread_badOffset _ src 4 (by omega), dstep_err]
    · refine ⟨.TooBig (uintValue e (src.take 4) + 1) (uintValue e (src.take 4)), ?_, rfl⟩
      unfold MINIDUMP_UTF8_STRING.try_from_ctx
      rw [gread_uint_ok e 4 src 0 4 (by omega) (by omega) (by omega), dstep_ok, h4,
          gread_slice_tooBig (uintValue e (src.take 4) + 1) src 4 (by omega) (by omega),
          dstep_err,
          show src.length - 4 = uintValue e (src.take 4) from by omega]

/-- Claim C4 witness: the two bounds failures at concrete one-byte-short
buffers (31 zero bytes for the header; 4 bytes declaring length 0 with no
room for the NUL terminator for the UTF-8 string). -/
theorem decode_one_byte_short_out_of_bounds_witness :
    MINIDUMP_HEADER.try_from_ctx (List.replicate 31 0) .le = .error (.TooBig 8 7) ∧
    (∃ er, MINIDUMP_UTF8_STRING.try_from_ctx [0, 0, 0, 0] .le = .error er ∧
      er.isOutOfBounds = true) :=
  ⟨decode_one_byte_short_out_of_bounds.1 (List.replicate 31 0) .le (by decide),
   decode_one_byte_short_out_of_bounds.2 [0, 0, 0, 0] .le (by decide)⟩

/-- Claim C7: decoding `MINIDUMP_MODULE` from any buffer of at least 108
bytes succeeds and consumes exactly 108 bytes — the type's fixed size —
whatever the values of the individual bytes. -/
theorem module_decode_consumes_108 (src : Bytes) (e : Endian) (h : 108 ≤ src.length) :
    ∃ m, MINIDUMP_MODULE.try_from_ctx src e = .ok (m, 108) := by
  obtain ⟨vs, hvs⟩ := vs_fixedfileinfo_decode_ok (src.drop 24) e
    (by rw [List.length_drop]; omega)
  obtain ⟨cv, hcv⟩ := location_descriptor_decode_ok (src.drop 76) e
    (by rw [List.length_drop]; omega)
  obtain ⟨mr, hmr⟩ := location_descriptor_decode_ok (src.drop 84) e
    (by rw [List.length_drop]; omega)
  exact ⟨_, by
    unfold MINIDUMP_MODULE.try_from_ctx
    rw [gread_uint_ok e 8 src 0 8 (by omega) (by omega) (by omega), dstep_ok,
        gread_uint_ok e 4 src 8 12 (by omega) (by omega) (by omega), dstep_ok,
        gread_uint_ok e 4 src 12 16 (by omega) (by omega) (by omega), dstep_ok,
        gread_uint_ok e 4 src 16 20 (by omega) (by omega) (by omega), dstep_ok,
        gread_uint_ok e 4 src 20 24 (by omega) (by omega) (by omega), dstep_ok,
        gread_ok (fun s => VS_FIXEDFILEINFO.try_from_ctx s e) src 24 76 vs 52
          (by omega) hvs (by omega), dstep_ok,
        gread_ok (fun s => MINIDUMP_LOCATION_DESCRIPTOR.try_from_ctx s e) src 76 84 cv 8
          (by omega) hcv (by omega), dstep_ok,
        gread_ok (fun s => MINIDUMP_LOCATION_DESCRIPTOR.try_from_ctx s e) src 84 92 mr 8
          (by omega) hmr (by omega), dstep_ok,
        gread_uint_ok e 4 src 92 96 (by omega) (by omega) (by omega), dstep_ok,
        gread_uint_ok e 4 src 96 100 (by omega) (by omega) (by omega), dstep_ok,
        gread_uint_ok e 4 src 100 104 (by omega) (by omega) (by omega), dstep_ok,
        gread_uint_ok e 4 src 104 108 (by omega) (by omega) (by omega), dstep_ok]⟩

/-- Claim C7 witness: a concrete 108-byte buffer decodes with 108 bytes
consumed. -/
theorem module_decode_consumes_108_witness :
    ∃ m, MINIDUMP_MODULE.try_from_ctx (List.replicate 108 0) .le = .ok (m, 108) :=
  module_decode_consumes_108 (List.replicate 108 0) .le (by decide)

/-- Claim C8 counterexample: a buffer of exactly 24 bytes (so the PDB
filename would be empty) does not decode: scroll's `gread` rejects the
zero-sized trailing read at offset 24 with `BadOffset`, so the claim's
"succeeds for every L >= 24" fails at L = 24. -/
theorem cv_pdb70_len24_counterexample :
    CV_INFO_PDB70.try_from_ctx (List.replicate 24 0) .le = .error (.BadOffset 24) := by
  decide

/-- Claim C8 (amended): for every buffer of length L >= 25, decoding
`CV_INFO_PDB70` succeeds, `pdb_file_name` holds exactly the L - 24 bytes
after the fixed header fields, and L bytes are consumed — the payload
length is determined by the enclosing buffer size. (At L = 24 the decode
fails with `BadOffset`: scroll rejects the zero-sized read at the buffer
end.) -/
theorem cv_pdb70_consumes_rest (src : Bytes) (e : Endian) (h : 25 ≤ src.length) :
    ∃ c, CV_INFO_PDB70.try_from_ctx src e = .ok (c, src.length) ∧
      c.pdb_file_name.length = src.length - 24 := by
  obtain ⟨g, hg⟩ := guid_decode_ok (src.drop 4) e (by rw [List.length_drop]; omega)
  refine ⟨⟨uintValue e ((src.drop 0).take 4), g, uintValue e ((src.drop 20).take 4),
           (src.drop 24).take (src.length - 24)⟩, ?_, ?_⟩
  · unfold CV_INFO_PDB70.try_from_ctx
    rw [gread_uint_ok e 4 src 0 4 (by omega) (by omega) (by omega), dstep_ok,
        gread_ok (fun s => GUID.try_from_ctx s e) src 4 20 g 16 (by omega) hg (by omega),
        dstep_ok,
        gread_uint_ok e 4 src 20 24 (by omega) (by omega) (by omega), dstep_ok,
        gread_slice_ok (src.length - 24) src 24 src.length (by omega) (by omega)
          (by omega), dstep_ok]
  · rw [List.length_take, List.length_drop]
    omega

/-- Claim C8 witness: a concrete 25-byte buffer decodes, consuming all 25
bytes with a 1-byte filename. -/
theorem cv_pdb70_consumes_rest_witness :
    ∃ c, CV_INFO_PDB70.try_from_ctx (List.replicate 25 0) .le = .ok (c, 25) ∧
      c.pdb_file_name.length = 1 :=
  cv_pdb70_consumes_rest (List.replicate 25 0) .le (by decide)

/-- Claim C1: decoding a buffer holding only the 24-byte V1 prefix
(`sizeof MINIDUMP_MISC_INFO`) through the highest-version decoder
(requested version 5, `MINIDUMP_MISC_INFO_5`) populates exactly the six V1
fields, leaves every higher version's fields unpopulated, reports effective
version 1, and yields the `TruncatedVersionedRecord` outcome rather than a
hard decode failure. -/
theorem miscInfo_v1_buffer_through_v5 (src : Bytes) (e : Endian) (h : src.length = 24) :
    decodeMiscInfoFamily 5 src e =
      .ok (⟨⟨uintValue e ((src.drop 0).take 4), uintValue e ((src.drop 4).take 4),
             uintValue e ((src.drop 8).take 4), uintValue e ((src.drop 12).take 4),
             uintValue e ((src.drop 16).take 4), uintValue e ((src.drop 20).take 4)⟩,
            none, none, none, none, 1⟩, .truncated) := by
  have hv1 : ∀ s, 1 ≤ miscInfoVersionForSize s := by
    intro s
    unfold miscInfoVersionForSize
    split_ifs <;> omega
  have heff : ∀ s, miscInfoEffectiveVersion 5 src.length s = 1 := by
    intro s
    unfold miscInfoEffectiveVersion
    rw [h, show miscInfoVersionForSize 24 = 1 from by decide]
    have := hv1 s
    omega
  unfold decodeMiscInfoFamily
  rw [gread_uint_ok e 4 src 0 4 (by omega) (by omega) (by omega), dstep_ok,
      gread_uint_ok e 4 src 4 8 (by omega) (by omega) (by omega), dstep_ok,
      gread_uint_ok e 4 src 8 12 (by omega) (by omega) (by omega), dstep_ok,
      gread_uint_ok e 4 src 12 16 (by omega) (by omega) (by omega), dstep_ok,
      gread_uint_ok e 4 src 16 20 (by omega) (by omega) (by omega), dstep_ok,
      gread_uint_ok e 4 src 20 24 (by omega) (by omega) (by omega), dstep_ok]
  simp only [heff]
  rfl

/-- Claim C1 witness: a concrete all-zero 24-byte buffer. -/
theorem miscInfo_v1_buffer_through_v5_witness :
    decodeMiscInfoFamily 5 (List.replicate 24 0) .le =
      .ok (⟨⟨0, 0, 0, 0, 0, 0⟩, none, none, none, none, 1⟩, .truncated) :=
  (miscInfo_v1_buffer_through_v5 (List.replicate 24 0) .le (by decide)).trans (by decide)

/-- After any NUL-suffix check succeeds, the last byte is the NUL. -/
theorem getLast?_of_zero_suffix (data : Bytes)
    (h : ([0] : Bytes).isSuffixOf data = true) : data.getLast? = some 0 := by
  have h2 : ([0] : Bytes) <:+ data := by simpa using h
  obtain ⟨t, rfl⟩ := h2
  exact List.getLast?_concat t

/-- Inversion for `dstep`: a successful chain means the first read
succeeded and the continuation succeeded on its result. -/
theorem dstep_inv {α β : Type} (x : Except ScrollError (α × Nat))
    (f : α → Nat → Except ScrollError β) (b : β) (h : dstep x f = .ok b) :
    ∃ v o, x = .ok (v, o) ∧ f v o = .ok b := by
  unfold dstep at h
  split at h
  · cases h
  · next v o => exact ⟨v, o, rfl, h⟩

/-- Claim C10: every successful `MINIDUMP_UTF8_STRING` decode retains the
NUL terminator: the buffer has length exactly `length + 1`, its last byte
is 0, and `4 + length + 1` bytes are consumed. -/
theorem utf8_decode_retains_terminator (src : Bytes) (e : Endian)
    (r : MINIDUMP_UTF8_STRING) (n : Nat)
    (h : MINIDUMP_UTF8_STRING.try_from_ctx src e = .ok (r, n)) :
    r.buffer.length = r.length + 1 ∧ r.buffer.getLast? = some 0 ∧
      n = 4 + r.length + 1 := by
  unfold MINIDUMP_UTF8_STRING.try_from_ctx at h
  obtain ⟨v, o, heq1, h⟩ := dstep_inv _ _ _ h
  obtain ⟨data, o2, heq2, h⟩ := dstep_inv _ _ _ h
  obtain ⟨-, sz1, hdec1, ho1⟩ := gread_inv _ _ _ _ _ heq1
  obtain ⟨-, hsz1, -⟩ := uintFromCtx_inv _ _ _ _ _ hdec1
  obtain ⟨-, sz2, hdec2, ho2⟩ := gread_inv _ _ _ _ _ heq2
  obtain ⟨hdata, hsz2, hbound⟩ := sliceFromCtx_inv _ _ _ _ hdec2
  replace h : (if ([0] : Bytes).isSuffixOf data
      then (.ok (⟨v, data⟩, o2) : Except ScrollError (MINIDUMP_UTF8_STRING × Nat))
      else .error (.Custom "Minidump String does not end with NUL byte")) = .ok (r, n) := h
  split at h
  · next hcond =>
    simp only [Except.ok.injEq, Prod.mk.injEq] at h
    obtain ⟨hr, hn⟩ := h
    subst hr
    refine ⟨?_, ?_, ?_⟩
    · show data.length = v + 1
      rw [hdata, List.length_take]
      omega
    · exact getLast?_of_zero_suffix data hcond
    · show n = 4 + v + 1
      omega
  · cases h

/-- Claim C10 witness: the decode of the concrete `"hello\0"` record keeps
the terminator and consumes 10 bytes. -/
theorem utf8_decode_retains_terminator_witness :
    ([104, 101, 108, 108, 111, 0] : Bytes).length = 5 + 1 ∧
    ([104, 101, 108, 108, 111, 0] : Bytes).getLast? = some 0 ∧
    10 = 4 + 5 + 1 :=
  utf8_decode_retains_terminator [5, 0, 0, 0, 104, 101, 108, 108, 111, 0] .le
    ⟨5, [104, 101, 108, 108, 111, 0]⟩ 10 (by decide)

end Minidump
